import Mathlib

/-!
Verification of the `speedometer` program (`src/main.rs`).

The development shallowly embeds the program's code:

* `set_brightness` (main.rs lines 29-38): the computed PWM pulse width, in
  microseconds, as a function of the `u8` brightness (embedded as `ℕ`).
* `speed_to_angle` (lines 274-278): `f32` arithmetic embedded as `ℝ`.
* `draw_speedometer` (lines 138-272): the sequence of surface draw calls the
  function issues, embedded as a list of `Op` values executed against a
  recording surface.  The Rust `?` operator's early return on a failed draw is
  embedded by `runDraw`, which stops at the first failing operation; failure of
  an individual draw call is injected through an `Oracle` that decides, by
  operation index, whether that draw call fails.
* the `main` loop body (lines 353-361): `clear(); draw_speedometer(..).ok();
  flush().ok(); speed += 1.0`, embedded as `render_cycle` / `main_run`.

`f32` values are modelled as real numbers, `i32`/`u8`/`u64`/`usize` values as
`ℤ`/`ℕ` (all values in play are far from the overflow boundaries), and the
`as i32` float-to-integer cast as `trunc`, truncation toward zero.
-/

namespace Speedometer

/-- Screen point; embeds `embedded_graphics::geometry::Point` (two `i32`s). -/
structure Point where
  x : ℤ
  y : ℤ
  deriving DecidableEq

instance : Add Point := ⟨fun a b => ⟨a.x + b.x, a.y + b.y⟩⟩

instance : Sub Point := ⟨fun a b => ⟨a.x - b.x, a.y - b.y⟩⟩

/-- Truncation toward zero: the semantics of Rust's `as i32` cast on an
in-range `f32` value. -/
noncomputable def trunc (r : ℝ) : ℤ :=
  if 0 ≤ r then ⌊r⌋ else ⌈r⌉

/-- The pulse width, in microseconds, that `set_brightness` (main.rs 29-38)
computes from the `u8` brightness and hands to `Pwm::set_pulse_width`:
`match brightness { 0 => 0µs, _ => (brightness as u64 * 3_000) / 255 µs }`. -/
def set_brightness_pulse_micros (brightness : ℕ) : ℕ :=
  match brightness with
  | 0 => 0
  | _ => brightness * 3000 / 255

/-- `speed_to_angle` (main.rs 274-278):
`((8.0*speed)/960.0) * std::f32::consts::PI + start_angle`. -/
noncomputable def speed_to_angle (speed start_angle : ℝ) : ℝ :=
  8 * speed / 960 * Real.pi + start_angle

/-- The readout width bucket (main.rs 245-250): `match speed_text.len()`
with `1 => 16`, `2 => 32`, `3 => 48`, `_ => 48` (the `SPEED_TEXT_WIDTH_*`
constants). -/
def speed_text_width (len : ℕ) : ℕ :=
  match len with
  | 1 => 16
  | 2 => 32
  | 3 => 48
  | _ => 48

/-- The tick-label width bucket (main.rs 203-208): `match number` with
`1..=9 => 6`, `10..=99 => 12`, `100..=999 => 18`, `_ => 18` (the
`TEXT_WIDTH_*_DIGIT` constants).  Note `0` falls through to the default arm. -/
def tick_number_width (number : ℕ) : ℕ :=
  if 1 ≤ number ∧ number ≤ 9 then 6
  else if 10 ≤ number ∧ number ≤ 99 then 12
  else if 100 ≤ number ∧ number ≤ 999 then 18
  else 18

/-- Modelled from the spec's words (for comparison against the code): a
tick-label width table keyed by character count, 1 character → 6px,
2 → 12px, 3 → 18px. -/
def spec_tick_width_by_char_count (c : ℕ) : ℕ :=
  if c = 1 then 6 else if c = 2 then 12 else 18

/-- Stroke color constants of the program; embeds the `Rgb565` values used
(`NEON_GREEN = Rgb565::new(0, 191, 83)`, `Rgb565::RED`, `Rgb565::WHITE`). -/
inductive Color where
  | neonGreen
  | red
  | white
  deriving DecidableEq

/-- Embeds `embedded_graphics::primitives::PrimitiveStyle` as produced by
`PrimitiveStyle::with_stroke(color, width)`. -/
structure PrimitiveStyle where
  color : Color
  strokeWidth : ℕ
  deriving DecidableEq

/-- Embeds `embedded_graphics::mono_font::MonoTextStyle`: the font's
`character_size` (width, height) and the text color. -/
structure MonoTextStyle where
  charWidth : ℕ
  charHeight : ℕ
  color : Color
  deriving DecidableEq

/-- `MonoTextStyle::new(&FONT_6X13_BOLD, Rgb565::WHITE)` (main.rs 348). -/
def FONT_6X13_BOLD_STYLE : MonoTextStyle := ⟨6, 13, .white⟩

/-- `MonoTextStyle::new(&PROFONT_24_POINT, Rgb565::WHITE)` (main.rs 349);
the profont crate's 24-point font has character size 16×29. -/
def PROFONT_24_POINT_STYLE : MonoTextStyle := ⟨16, 29, .white⟩

/-- `MonoTextStyle::new(&FONT_10X20, Rgb565::WHITE)` (main.rs 350). -/
def FONT_10X20_STYLE : MonoTextStyle := ⟨10, 20, .white⟩

/-- `PrimitiveStyle::with_stroke(NEON_GREEN, 4)` (main.rs 351). -/
def CIRCLE_STYLE_MAIN : PrimitiveStyle := ⟨.neonGreen, 4⟩

/-- Constants of `draw_speedometer` (main.rs 144-170). -/
def TICK_LENGTH : ℤ := 20

def DEFAULT_TEXT_RADIUS : ℤ := 15

def TEXT_HEIGHT : ℕ := 13

def NEEDLE_LENGTH : ℕ := 92

def TEXT_OFFSET_Y : ℤ := 40

def UNIT_TEXT : String := "mi/hr"

def UNIT_TEXT_POS : Point := ⟨95, 179⟩

noncomputable def START_ANGLE : ℝ := Real.pi

def CENTER : Point := ⟨119, 119⟩

def RADIUS : ℤ := 112

def TOP_LEFT : Point := ⟨8, 8⟩

/-- One surface operation issued by the program.  Each constructor embeds one
draw call site of `main`/`draw_speedometer`; the `i` index on tick operations
records the loop index of the call, for specification purposes. -/
inductive Op where
  | clear
  | circle (topLeft : Point) (diameter : ℕ) (style : PrimitiveStyle)
  | tickSeg (i : ℕ) (outer inner : Point) (style : PrimitiveStyle)
  | tickLabel (i : ℕ) (s : String) (pos : Point) (style : MonoTextStyle)
  | needle (p q : Point) (style : PrimitiveStyle)
  | speedText (s : String) (pos : Point) (style : MonoTextStyle)
  | unitText (s : String) (pos : Point) (style : MonoTextStyle)
  | flush

/-- The call-site kind of an operation, payload stripped. -/
inductive OpKind where
  | clear
  | circle
  | tickSeg (i : ℕ)
  | tickLabel (i : ℕ)
  | needle
  | speedText
  | unitText
  | flush
  deriving DecidableEq

def opKind : Op → OpKind
  | .clear => .clear
  | .circle .. => .circle
  | .tickSeg i .. => .tickSeg i
  | .tickLabel i .. => .tickLabel i
  | .needle .. => .needle
  | .speedText .. => .speedText
  | .unitText .. => .unitText
  | .flush => .flush

def isTickSeg : Op → Bool
  | .tickSeg .. => true
  | _ => false

def isTickLabel : Op → Bool
  | .tickLabel .. => true
  | _ => false

/-- The tick angle (main.rs 185):
`(i as f32 * 2.0 * PI / 24.0) + START_ANGLE`. -/
noncomputable def tick_angle (i : ℕ) : ℝ := i * 2 * Real.pi / 24 + START_ANGLE

/-- The outer tick endpoint (main.rs 186-189). -/
noncomputable def outer_end (i : ℕ) : Point :=
  CENTER + ⟨trunc (Real.cos (tick_angle i) * (RADIUS : ℝ)),
            trunc (Real.sin (tick_angle i) * (RADIUS : ℝ))⟩

/-- The inner tick endpoint (main.rs 190-193). -/
noncomputable def inner_end (i : ℕ) : Point :=
  CENTER + ⟨trunc (Real.cos (tick_angle i) * ((RADIUS - TICK_LENGTH : ℤ) : ℝ)),
            trunc (Real.sin (tick_angle i) * ((RADIUS - TICK_LENGTH : ℤ) : ℝ))⟩

/-- The label angle (main.rs 211): `angle + START_ANGLE`. -/
noncomputable def tick_text_angle (i : ℕ) : ℝ := tick_angle i + START_ANGLE

/-- The radial reference point of a tick label (main.rs 212-215):
`CENTER - Point::new(cos·(RADIUS - (DEFAULT_TEXT_RADIUS + TICK_LENGTH)), …)`. -/
noncomputable def tick_ref_point (i : ℕ) : Point :=
  CENTER -
    ⟨trunc (Real.cos (tick_text_angle i) *
        ((RADIUS - (DEFAULT_TEXT_RADIUS + TICK_LENGTH) : ℤ) : ℝ)),
     trunc (Real.sin (tick_text_angle i) *
        ((RADIUS - (DEFAULT_TEXT_RADIUS + TICK_LENGTH) : ℤ) : ℝ))⟩

/-- The anchor of a tick label (main.rs 209-215): the reference point minus
`(number_width / 2, TEXT_HEIGHT / 2)` (both `u8` divisions) plus the fixed
nudge `(1, 9)`. -/
noncomputable def tick_text_pos (i : ℕ) : Point :=
  tick_ref_point i
    - ⟨((tick_number_width (i * 10) / 2 : ℕ) : ℤ), ((TEXT_HEIGHT / 2 : ℕ) : ℤ)⟩
    + ⟨1, 9⟩

/-- `format!("{:2}", n)`: decimal rendering right-aligned to minimum width 2
(main.rs 216). -/
def format_width2 (n : ℕ) : String :=
  if n < 10 then " " ++ toString n else toString n

/-- The needle endpoint (main.rs 225-229): `CENTER + (cos·92, sin·92)` at
`speed_to_angle(speed, START_ANGLE)`. -/
noncomputable def needle_end (speed : ℝ) : Point :=
  CENTER + ⟨trunc (Real.cos (speed_to_angle speed START_ANGLE) * (NEEDLE_LENGTH : ℝ)),
            trunc (Real.sin (speed_to_angle speed START_ANGLE) * (NEEDLE_LENGTH : ℝ))⟩

/-- The readout anchor (main.rs 252-253): `CENTER - (width/2, char_height/2)
+ (1, TEXT_OFFSET_Y)`, the width selected by `speed_text_width` from the
formatted string's length. -/
def speed_text_pos (s : String) (style : MonoTextStyle) : Point :=
  CENTER - ⟨((speed_text_width s.length / 2 : ℕ) : ℤ), ((style.charHeight / 2 : ℕ) : ℤ)⟩
    + ⟨1, TEXT_OFFSET_Y⟩

/-- The draw calls of one iteration of the tick loop (main.rs 184-218):
the segment, then — when `i % 2 == 0` — the numeric label. -/
noncomputable def tick_ops (text_style : MonoTextStyle) (i : ℕ) : List Op :=
  Op.tickSeg i (outer_end i) (inner_end i)
      ⟨.neonGreen, if i % 2 = 0 then 3 else 1⟩
    :: (if i % 2 = 0 then
          [Op.tickLabel i (format_width2 (i * 10)) (tick_text_pos i) text_style]
        else [])

/-- The sequence of draw calls `draw_speedometer` (main.rs 138-272) issues,
in program order: the dial circle, the tick loop for `i in 0..=12`, the
needle, the readout text, the unit text.  Each entry corresponds to one
`.draw(display)?` statement. -/
noncomputable def draw_ops (speed : ℝ) (speed_str : String)
    (circle_style : PrimitiveStyle)
    (text_style speed_text_style unit_text_style : MonoTextStyle) : List Op :=
  Op.circle TOP_LEFT (RADIUS.toNat * 2) circle_style
    :: ((List.range 13).flatMap (tick_ops text_style)
      ++ [Op.needle CENTER (needle_end speed) ⟨.red, 2⟩,
          Op.speedText speed_str (speed_text_pos speed_str speed_text_style)
            speed_text_style,
          Op.unitText UNIT_TEXT UNIT_TEXT_POS unit_text_style])

/-- The recording surface: the list of operations attempted so far. -/
structure Surface where
  ops : List Op

/-- Failure injection for `DrawTarget` draw calls: decides, by the index of
the operation in the attempt log, whether that draw call fails. -/
def Oracle := ℕ → Bool

/-- The oracle under which no draw call fails (normal operation). -/
def noFail : Oracle := fun _ => false

/-- Attempt one draw call: the operation is recorded (attempted) and the
boolean reports whether the call succeeded. -/
def attempt (oracle : Oracle) (s : Surface) (op : Op) : Surface × Bool :=
  (⟨s.ops ++ [op]⟩, !(oracle s.ops.length))

/-- Run a sequence of draw calls with the Rust `?` semantics: on the first
failing call the function returns immediately with the error (`false`),
skipping all remaining calls. -/
def runDraw (oracle : Oracle) (s : Surface) : List Op → Surface × Bool
  | [] => (s, true)
  | op :: rest =>
    let r := attempt oracle s op
    if r.2 then runDraw oracle r.1 rest else r

/-- `draw_speedometer` (main.rs 138-272): issues `draw_ops` in order, with
`?`-style early return on the first failed draw. -/
noncomputable def draw_speedometer (oracle : Oracle) (display : Surface)
    (speed : ℝ) (speed_str : String) (circle_style : PrimitiveStyle)
    (text_style speed_text_style unit_text_style : MonoTextStyle) :
    Surface × Bool :=
  runDraw oracle display
    (draw_ops speed speed_str circle_style text_style speed_text_style
      unit_text_style)

/-- One iteration of the `main` loop body (main.rs 353-360):
`display_driver.clear()` (infallible on the buffered driver), then
`draw_speedometer(..).ok()` (an error is swallowed), then
`display_driver.flush().ok()` (attempted regardless, error swallowed).
`speed_str` stands for `format!("{}", speed)`, which the embedding keeps
abstract (decimal `f32` formatting is outside the model). -/
noncomputable def render_cycle (oracle : Oracle) (display : Surface)
    (speed : ℝ) (speed_str : String) : Surface :=
  let s1 : Surface := ⟨display.ops ++ [Op.clear]⟩
  let r := draw_speedometer oracle s1 speed speed_str CIRCLE_STYLE_MAIN
    FONT_6X13_BOLD_STYLE PROFONT_24_POINT_STYLE FONT_10X20_STYLE
  (attempt oracle r.1 Op.flush).1

/-- The operations of one failure-free render cycle, from an empty log. -/
noncomputable def cycle_ops (speed : ℝ) (speed_str : String) : List Op :=
  (render_cycle noFail ⟨[]⟩ speed speed_str).ops

/-- The `main` loop (main.rs 344-361) after `n` iterations: `speed` starts at
`0.0`; each iteration renders one cycle at the current speed and then runs
`speed += 1.0`.  Returns the current speed and the list of per-iteration
frames.  `fmt` stands for `format!("{}", ·)`.  `source_content` models the
content of the external value source the spec describes; the code never
reads it, so the parameter does not occur in the body. -/
noncomputable def main_run (fmt : ℝ → String) (source_content : String) :
    ℕ → ℝ × List (List Op)
  | 0 => ((0 : ℝ), [])
  | n + 1 =>
    let st := main_run fmt source_content n
    (st.1 + 1, st.2 ++ [cycle_ops st.1 (fmt st.1)])

/-- The kinds of operations one render cycle attempts, in program order:
clear, circle, the tick loop (segment `i`, then label `i` when `i` is even,
interleaved per index), needle, readout, unit text, flush. -/
def CYCLE_KINDS : List OpKind :=
  [.clear, .circle,
   .tickSeg 0, .tickLabel 0, .tickSeg 1, .tickSeg 2, .tickLabel 2,
   .tickSeg 3, .tickSeg 4, .tickLabel 4, .tickSeg 5, .tickSeg 6, .tickLabel 6,
   .tickSeg 7, .tickSeg 8, .tickLabel 8, .tickSeg 9, .tickSeg 10, .tickLabel 10,
   .tickSeg 11, .tickSeg 12, .tickLabel 12,
   .needle, .speedText, .unitText, .flush]

/-- Modelled from the claim's words (for comparison against the code): the
asserted cycle order — clear, circle, then all tick segments, then all
major-tick labels, then needle, readout, unit text, flush. -/
def SPEC_ORDER_KINDS : List OpKind :=
  [.clear, .circle] ++ (List.range 13).map OpKind.tickSeg
    ++ ((List.range 13).filter (fun i => i % 2 = 0)).map OpKind.tickLabel
    ++ [.needle, .speedText, .unitText, .flush]

/-- An oracle that fails exactly the fourth attempted operation of a cycle —
with an empty starting log that is the tick-0 label draw (after clear,
circle, tick-0 segment). -/
def failLabelOracle : Oracle := fun n => n == 3

/-- The operations `runDraw` attempts when started at log position `k`: every
operation up to and including the first failing one. -/
def emit (oracle : Oracle) (k : ℕ) : List Op → List Op
  | [] => []
  | op :: rest => op :: (if oracle k then [] else emit oracle (k + 1) rest)

/-- Whether `runDraw` started at log position `k` completes without error. -/
def emitSuccess (oracle : Oracle) (k : ℕ) : List Op → Bool
  | [] => true
  | _ :: rest => if oracle k then false else emitSuccess oracle (k + 1) rest

/-- Claim C1: `speed_to_angle(value, start_angle)` equals
`start_angle + (value / 120) · π`; consequently it sends 0 to `start_angle`
and 120 to `start_angle + π`, it is monotonically non-decreasing, and no
clamping occurs: values below 0 project strictly below `start_angle` and
values above 120 strictly above `start_angle + π`. -/
theorem speed_to_angle_spec (s : ℝ) :
    (∀ v, speed_to_angle v s = s + v / 120 * Real.pi)
    ∧ speed_to_angle 0 s = s
    ∧ speed_to_angle 120 s = s + Real.pi
    ∧ Monotone (fun v => speed_to_angle v s)
    ∧ (∀ v, v < 0 → speed_to_angle v s < s)
    ∧ (∀ v, 120 < v → s + Real.pi < speed_to_angle v s) := by
  have hpi := Real.pi_pos
  refine ⟨fun v => by unfold speed_to_angle; ring,
    by unfold speed_to_angle; ring,
    by unfold speed_to_angle; ring, ?_, ?_, ?_⟩
  · intro a b hab
    simp only [speed_to_angle]
    have h8 : 8 * a / 960 ≤ 8 * b / 960 := by linarith
    nlinarith
  · intro v hv
    simp only [speed_to_angle]
    nlinarith
  · intro v hv
    simp only [speed_to_angle]
    nlinarith

/-- Concrete instance of `speed_to_angle_spec`: with `start_angle = 0`, the
speed −1 projects below 0 and the speed 121 projects above π. -/
theorem speed_to_angle_spec_witness :
    speed_to_angle (-1) 0 < 0 ∧ (0 : ℝ) + Real.pi < speed_to_angle 121 0 :=
  ⟨(speed_to_angle_spec 0).2.2.2.2.1 (-1) (by norm_num),
   (speed_to_angle_spec 0).2.2.2.2.2 121 (by norm_num)⟩

/-- Claim C10: `set_brightness` maps brightness 0 to a 0µs pulse width and
every brightness `b` in `1..=255` to `(b · 3000) / 255` µs in integer
arithmetic; the mapping is monotonically non-decreasing and reaches exactly
3000µs (the full PWM period) at `b = 255`. -/
theorem set_brightness_spec :
    set_brightness_pulse_micros 0 = 0
    ∧ (∀ b, 1 ≤ b → b ≤ 255 → set_brightness_pulse_micros b = b * 3000 / 255)
    ∧ Monotone set_brightness_pulse_micros
    ∧ set_brightness_pulse_micros 255 = 3000 := by
  refine ⟨rfl, ?_, ?_, rfl⟩
  · intro b hb _
    cases b with
    | zero => omega
    | succ n => rfl
  · intro a b hab
    cases a with
    | zero => exact Nat.zero_le _
    | succ m =>
      cases b with
      | zero => omega
      | succ n =>
        show (m + 1) * 3000 / 255 ≤ (n + 1) * 3000 / 255
        exact Nat.div_le_div_right (Nat.mul_le_mul_right _ hab)

/-- Concrete instance of `set_brightness_spec`: brightness 128 yields
`128·3000/255` µs. -/
theorem set_brightness_spec_witness :
    set_brightness_pulse_micros 128 = 128 * 3000 / 255 :=
  set_brightness_spec.2.1 128 (by decide) (by decide)

/-- Claim C6: the readout width selection is total; lengths 1, 2, 3 select
16px, 32px, 48px, and every length of 4 or more reuses the 3-character
bucket of 48px. -/
theorem speed_text_width_spec :
    speed_text_width 1 = 16 ∧ speed_text_width 2 = 32 ∧ speed_text_width 3 = 48
    ∧ (∀ n, 4 ≤ n →
        speed_text_width n = 48 ∧ speed_text_width n = speed_text_width 3) := by
  refine ⟨rfl, rfl, rfl, ?_⟩
  intro n hn
  obtain ⟨m, rfl⟩ : ∃ m, n = m + 4 := ⟨n - 4, by omega⟩
  exact ⟨rfl, rfl⟩

/-- Concrete instance of `speed_text_width_spec`: a 5-character readout
string reuses the 48px bucket. -/
theorem speed_text_width_spec_witness :
    speed_text_width 5 = 48 ∧ speed_text_width 5 = speed_text_width 3 :=
  speed_text_width_spec.2.2.2 5 (by decide)

/-- `runDraw` records exactly the operations up to and including the first
failing one, and succeeds iff none fails. -/
theorem runDraw_emit (oracle : Oracle) (ops : List Op) :
    ∀ s : Surface,
      runDraw oracle s ops
        = (⟨s.ops ++ emit oracle s.ops.length ops⟩,
           emitSuccess oracle s.ops.length ops) := by
  induction ops with
  | nil => intro s; simp [runDraw, emit, emitSuccess]
  | cons op rest ih =>
    intro s
    rw [runDraw]
    cases h : oracle s.ops.length with
    | true => simp [attempt, h, emit, emitSuccess]
    | false =>
      simp only [attempt, h, Bool.not_false, if_true]
      rw [ih ⟨s.ops ++ [op]⟩]
      simp [emit, emitSuccess, h, List.append_assoc]

/-- The operations a render cycle attempts: the clear, then the draw calls of
`draw_speedometer` up to and including the first failing one, then the flush
(attempted regardless of a draw failure). -/
theorem render_cycle_ops (oracle : Oracle) (d : Surface) (v : ℝ) (str : String) :
    (render_cycle oracle d v str).ops
      = d.ops ++ (Op.clear ::
          (emit oracle (d.ops.length + 1)
            (draw_ops v str CIRCLE_STYLE_MAIN FONT_6X13_BOLD_STYLE
              PROFONT_24_POINT_STYLE FONT_10X20_STYLE)
            ++ [Op.flush])) := by
  simp only [render_cycle, draw_speedometer]
  rw [runDraw_emit]
  simp [attempt, List.append_assoc]

/-- The full claim-relevant description of `main_run`: the speed after `n`
iterations is `n`, each iteration appends exactly one frame, the `k`-th frame
is the cycle at speed `k`, and nothing depends on the external content. -/
theorem main_run_props (fmt : ℝ → String) (content : String) (n : ℕ) :
    (main_run fmt content n).1 = (n : ℝ)
    ∧ (main_run fmt content n).2.length = n
    ∧ (∀ k, k < n →
        (main_run fmt content n).2[k]? = some (cycle_ops (k : ℝ) (fmt (k : ℝ))))
    ∧ main_run fmt content n = main_run fmt "" n := by
  induction n with
  | zero =>
    refine ⟨by norm_num [main_run], by simp [main_run], ?_, rfl⟩
    intro k hk
    omega
  | succ m ih =>
    obtain ⟨h1, h2, h3, h4⟩ := ih
    refine ⟨?_, ?_, ?_, ?_⟩
    · show (main_run fmt content m).1 + 1 = ((m + 1 : ℕ) : ℝ)
      rw [h1]
      push_cast
      ring
    · show ((main_run fmt content m).2
          ++ [cycle_ops (main_run fmt content m).1
                (fmt (main_run fmt content m).1)]).length = m + 1
      simp [h2]
    · intro k hk
      show ((main_run fmt content m).2
          ++ [cycle_ops (main_run fmt content m).1
                (fmt (main_run fmt content m).1)])[k]? = _
      by_cases hkm : k < m
      · rw [List.getElem?_append_left (by omega)]
        exact h3 k hkm
      · have hk' : k = m := by omega
        subst hk'
        rw [List.getElem?_append_right (by omega), h1, h2]
        simp
    · show ((main_run fmt content m).1 + 1,
          (main_run fmt content m).2
            ++ [cycle_ops (main_run fmt content m).1
                  (fmt (main_run fmt content m).1)])
        = main_run fmt "" (m + 1)
      rw [h4]
      rfl

/-- The angle of tick `i` equals `start_angle + i · (angular_span /
subdivision_count)` with span π and subdivision count 12. -/
theorem tick_angle_eq (i : ℕ) :
    tick_angle i = START_ANGLE + i * (Real.pi / 12) := by
  unfold tick_angle START_ANGLE
  ring

/-- Claim C4: one failure-free cycle draws exactly 13 tick segments, for
indices 0..=12; tick `i` runs at angle `start_angle + i·(π/12)` from
`center + radius·(cos,sin)` to `center + (radius − tick_length)·(cos,sin)`
(pixel-truncated), with stroke width 3 exactly when `i` is even and 1 when
odd; a numeric label is drawn exactly for even `i`. -/
theorem dial_geometry_spec (v : ℝ) (s : String) :
    ((cycle_ops v s).filter isTickSeg).length = 13
    ∧ (cycle_ops v s).filter isTickSeg
      = (List.range 13).map (fun i =>
          Op.tickSeg i
            (CENTER + ⟨trunc (Real.cos (START_ANGLE + i * (Real.pi / 12)) * (RADIUS : ℝ)),
                       trunc (Real.sin (START_ANGLE + i * (Real.pi / 12)) * (RADIUS : ℝ))⟩)
            (CENTER + ⟨trunc (Real.cos (START_ANGLE + i * (Real.pi / 12))
                          * ((RADIUS - TICK_LENGTH : ℤ) : ℝ)),
                       trunc (Real.sin (START_ANGLE + i * (Real.pi / 12))
                          * ((RADIUS - TICK_LENGTH : ℤ) : ℝ))⟩)
            ⟨.neonGreen, if i % 2 = 0 then 3 else 1⟩)
    ∧ (cycle_ops v s).filter isTickLabel
      = ((List.range 13).filter (fun i => i % 2 = 0)).map (fun i =>
          Op.tickLabel i (format_width2 (i * 10)) (tick_text_pos i)
            FONT_6X13_BOLD_STYLE) := by
  refine ⟨rfl, ?_, rfl⟩
  have h : (cycle_ops v s).filter isTickSeg
      = (List.range 13).map (fun i =>
          Op.tickSeg i (outer_end i) (inner_end i)
            ⟨.neonGreen, if i % 2 = 0 then 3 else 1⟩) := rfl
  rw [h]
  refine List.map_congr_left ?_
  intro i _
  simp only [outer_end, inner_end, tick_angle_eq]

/-- Claim C5 (counterexample): the tick-label value 0 — drawn at tick index
0 — renders as the 1-character numeral "0", whose claimed width bucket is
6px, but the code's range-keyed table sends 0 to the default 18px bucket. -/
theorem tick_label_width_counterexample :
    (toString (0 * 10 : ℕ)).length = 1
    ∧ spec_tick_width_by_char_count 1 = 6
    ∧ tick_number_width (0 * 10) = 18
    ∧ tick_number_width (0 * 10)
        ≠ spec_tick_width_by_char_count (toString (0 * 10 : ℕ)).length := by
  refine ⟨rfl, rfl, by decide, by decide⟩

/-- Claim C5 (amended): the tick-label width is keyed by the numeric range of
the value — 1..=9 → 6px, 10..=99 → 12px, 100..=999 → 18px, and anything else
(including 0) → 18px; the anchor equals the radial reference point minus
`(width/2, text_height/2)` plus the fixed nudge `(1, 9)`; in particular for
the value 40 (tick index 4) the anchor equals `reference − (6,6) + (1,9)`. -/
theorem tick_label_layout_spec :
    (∀ n, 1 ≤ n → n ≤ 9 → tick_number_width n = 6)
    ∧ (∀ n, 10 ≤ n → n ≤ 99 → tick_number_width n = 12)
    ∧ (∀ n, 100 ≤ n → n ≤ 999 → tick_number_width n = 18)
    ∧ tick_number_width 0 = 18
    ∧ (∀ i : ℕ, tick_text_pos i
        = tick_ref_point i
            - ⟨((tick_number_width (i * 10) / 2 : ℕ) : ℤ), ((TEXT_HEIGHT / 2 : ℕ) : ℤ)⟩
            + ⟨1, 9⟩)
    ∧ tick_text_pos 4 = tick_ref_point 4 - ⟨6, 6⟩ + ⟨1, 9⟩ := by
  refine ⟨?_, ?_, ?_, by decide, fun i => rfl, ?_⟩
  · intro n h1 h2
    rw [tick_number_width, if_pos ⟨h1, h2⟩]
  · intro n h1 h2
    rw [tick_number_width, if_neg (by omega), if_pos ⟨h1, h2⟩]
  · intro n h1 h2
    rw [tick_number_width, if_neg (by omega), if_neg (by omega),
      if_pos ⟨h1, h2⟩]
  · show tick_ref_point 4
        - ⟨((tick_number_width (4 * 10) / 2 : ℕ) : ℤ), ((TEXT_HEIGHT / 2 : ℕ) : ℤ)⟩
        + ⟨1, 9⟩
      = tick_ref_point 4 - ⟨6, 6⟩ + ⟨1, 9⟩
    norm_num [tick_number_width, TEXT_HEIGHT]

/-- Concrete instance of `tick_label_layout_spec`: the width bucket of the
value 40 is 12px. -/
theorem tick_label_layout_spec_witness : tick_number_width 40 = 12 :=
  tick_label_layout_spec.2.1 40 (by decide) (by decide)

/-- Claim C7 (counterexample): the cycle's operation order is not "all tick
segments, then all major-tick labels" — the label of tick 0 is drawn before
the segment of tick 1. -/
theorem draw_order_counterexample :
    (cycle_ops 0 "0").map opKind ≠ SPEC_ORDER_KINDS := by
  have h : (cycle_ops 0 "0").map opKind = CYCLE_KINDS := rfl
  rw [h]
  decide

/-- Claim C7 (amended): every failure-free render cycle performs its surface
operations in the fixed order: clear, dial circle, then for each tick index
in ascending order its segment immediately followed (for even indices) by its
label, then the needle, the value readout, the unit label, and the flush. -/
theorem draw_order_spec (v : ℝ) (s : String) :
    (cycle_ops v s).map opKind = CYCLE_KINDS := rfl

/-- Claim C3 (counterexample): a failed tick-label draw prevents the
subsequent needle draw: under the oracle failing the tick-0 label, the needle
operation — attempted in the failure-free cycle — is never attempted. -/
theorem draw_error_counterexample :
    OpKind.needle ∈ (cycle_ops 0 "0").map opKind
    ∧ OpKind.needle ∉
        ((render_cycle failLabelOracle ⟨[]⟩ 0 "0").ops).map opKind := by
  constructor
  · have h : (cycle_ops 0 "0").map opKind = CYCLE_KINDS := rfl
    rw [h]
    decide
  · have h : ((render_cycle failLabelOracle ⟨[]⟩ 0 "0").ops).map opKind
        = [.clear, .circle, .tickSeg 0, .tickLabel 0, .flush] := rfl
    rw [h]
    decide

/-- Claim C3 (amended): when a primitive draw inside `draw_speedometer`
fails, the function returns at once with the error, skipping every remaining
primitive of the cycle; `main` swallows the error, so the flush is still
attempted.  Under the oracle failing the tick-0 label draw, the attempted
operations are exactly: clear, circle, tick-0 segment, the failing tick-0
label, and the flush. -/
theorem draw_error_early_exit (v : ℝ) (s : String) :
    ((render_cycle failLabelOracle ⟨[]⟩ v s).ops).map opKind
      = [.clear, .circle, .tickSeg 0, .tickLabel 0, .flush] := rfl

/-- Claim C8: the compositor cycle is deterministic: two invocations of the
cycle with the same speed, the same formatted string, and the same failure
behaviour, started on surfaces with attempt logs of equal length, append the
identical sequence of operations — rendering the same reading twice yields
identical frames. -/
theorem render_deterministic (oracle : Oracle) (d₁ d₂ : Surface) (v : ℝ)
    (s : String) (h : d₁.ops.length = d₂.ops.length) :
    (render_cycle oracle d₁ v s).ops.drop d₁.ops.length
      = (render_cycle oracle d₂ v s).ops.drop d₂.ops.length := by
  rw [render_cycle_ops, render_cycle_ops, List.drop_left, List.drop_left, h]

/-- Concrete instance of `render_deterministic`: two cycles at speed 5 on
distinct one-entry logs append the same operations. -/
theorem render_deterministic_witness :
    (render_cycle noFail ⟨[Op.clear]⟩ 5 "5").ops.drop
        (Surface.ops ⟨[Op.clear]⟩).length
      = (render_cycle noFail ⟨[Op.flush]⟩ 5 "5").ops.drop
        (Surface.ops ⟨[Op.flush]⟩).length :=
  render_deterministic noFail ⟨[Op.clear]⟩ ⟨[Op.flush]⟩ 5 "5" rfl

/-- Claim C9: the main loop's state evolves by a fixed step independent of
any external input: the speed starts at 0.0 and is incremented by exactly 1.0
after each render cycle, the `n`-th cycle (from 0) renders speed `n`, a
redraw happens unconditionally on every iteration, and no event source is
consulted (the run is invariant in the external content). -/
theorem main_loop_autonomous (fmt : ℝ → String) (content : String) (n : ℕ) :
    (main_run fmt content n).1 = (n : ℝ)
    ∧ (main_run fmt content n).2.length = n
    ∧ (∀ k, k < n →
        (main_run fmt content n).2[k]? = some (cycle_ops (k : ℝ) (fmt (k : ℝ))))
    ∧ main_run fmt content n = main_run fmt "" n :=
  main_run_props fmt content n

/-- Concrete instance of `main_loop_autonomous`: after two iterations the
speed is 2 and the first frame is the cycle at speed 0. -/
theorem main_loop_autonomous_witness :
    (main_run (fun _ => "0") "45.0" 2).2[0]?
      = some (cycle_ops ((0 : ℕ) : ℝ) ((fun _ : ℝ => "0") ((0 : ℕ) : ℝ))) :=
  (main_loop_autonomous (fun _ => "0") "45.0" 2).2.2.1 0 (by decide)

/-- Claim C2 (counterexample): value-source content "abc" does not yield zero
redraws — the loop redraws on its first iteration regardless of the content
(the program never reads or parses any external value). -/
theorem external_content_counterexample :
    (main_run (fun _ => "0") "abc" 1).2.length ≠ 0 := by
  have h : (main_run (fun _ => "0") "abc" 1).2.length = 1 := by
    simp [main_run]
  omega

/-- Claim C2 (amended): the program contains no update scheduler: the main
loop never reads, trims, or parses the external value source — its run is
identical for every content, including "", "abc" and "45.0\n" — and every
loop iteration unconditionally produces exactly one compositor cycle, whose
needle angle is `speed_to_angle` of the internal counter, not of any parsed
value. -/
theorem external_content_ignored (fmt : ℝ → String) (c c' : String) (n : ℕ) :
    main_run fmt c n = main_run fmt c' n
    ∧ (main_run fmt c n).2.length = n :=
  ⟨(main_run_props fmt c n).2.2.2.trans (main_run_props fmt c' n).2.2.2.symm,
   (main_run_props fmt c n).2.1⟩

end Speedometer
